import Mathlib

/-!
Shallow embedding of the FTDC download client (`ftdc/service.py`,
`ftdc/models.py`, `ftdc/errors.py`).

HTTP responses are modelled as explicit input values (status code plus the
JSON fields the code reads, each `Option` when the code uses `.get` with a
default). Side effects are modelled as explicit outputs: the poll loop
returns the number of status queries and the list of sleep durations it
performed, and the downloader returns the file it created (path and bytes)
alongside its result. Python exceptions become `Except` with an error-kind
inductive; Python's built-in `KeyError` is one of the kinds, distinguished
from the `FTDCError` hierarchy by `ErrKind.isFTDCError`.
-/

namespace FTDC

/-- Error taxonomy of `ftdc/errors.py` (each constructor one exception
class deriving `FTDCError`), plus Python's built-in `KeyError`, which does
not derive `FTDCError`. -/
inductive ErrKind where
  | replicaSetNotFound
  | jobCreation
  | jobStatus
  | download
  | keyError
deriving DecidableEq

instance {ε α : Type} [DecidableEq ε] [DecidableEq α] : DecidableEq (Except ε α) := fun x y =>
  match x, y with
  | .error a, .error b =>
    if h : a = b then .isTrue (by rw [h]) else .isFalse (by simp [h])
  | .ok a, .ok b =>
    if h : a = b then .isTrue (by rw [h]) else .isFalse (by simp [h])
  | .error _, .ok _ => .isFalse (by simp)
  | .ok _, .error _ => .isFalse (by simp)

/-- Whether an error kind belongs to the `FTDCError` base class of
`errors.py`. `KeyError` is a Python built-in and does not. -/
def ErrKind.isFTDCError : ErrKind → Bool
  | .keyError => false
  | _ => true

/-- Scan for a contiguous occurrence of `needle` in `hay`: at the start, or
anywhere in the tail. -/
def listContains (needle : List Char) : List Char → Bool
  | [] => needle.isEmpty
  | c :: hay => needle.isPrefixOf (c :: hay) || listContains needle hay

/-- Python substring test `needle in hay` on strings: `needle` occurs as a
contiguous substring of `hay` (the empty needle always occurs). -/
def containsSub (hay needle : String) : Bool :=
  listContains needle.data hay.data

/-- Python truthiness of an optional string: `None` and `""` are falsy,
every other string is truthy. -/
def pyTruthy : Option String → Bool
  | none => false
  | some s => s != ""

/-- Job state enumeration from `models.py`. -/
inductive JobState where
  | SUCCESS
  | FAILURE
  | IN_PROGRESS
  | MARKED_FOR_EXPIRY
  | EXPIRED
deriving DecidableEq

/-- String value of each `JobState` member (`str`-valued enum). -/
def JobState.value : JobState → String
  | .SUCCESS => "SUCCESS"
  | .FAILURE => "FAILURE"
  | .IN_PROGRESS => "IN_PROGRESS"
  | .MARKED_FOR_EXPIRY => "MARKED_FOR_EXPIRY"
  | .EXPIRED => "EXPIRED"

/-- All members of the `JobState` enumeration. -/
def JobState.all : List JobState :=
  [.SUCCESS, .FAILURE, .IN_PROGRESS, .MARKED_FOR_EXPIRY, .EXPIRED]

/-- The five known job-state strings. -/
def JobState.values : List String :=
  JobState.all.map JobState.value

/-- `Shard` dataclass from `models.py`. -/
structure Shard where
  user_alias : String
  type_name : String
  replica_set_name : Option String
deriving DecidableEq

/-- One record of the processes list-endpoint response body; each field is
optional because the code reads it with `result.get`. -/
structure ProcessRecord where
  userAlias : Option String
  typeName : Option String
  replicaSetName : Option String
deriving DecidableEq

/-- Construction of a `Shard` from a raw record, as in
`FTDCService.get_replica_set`: absent `userAlias` and `typeName` default to
`""`, absent `replicaSetName` stays `None`. -/
def Shard.ofRecord (r : ProcessRecord) : Shard :=
  { user_alias := r.userAlias.getD ""
    type_name := r.typeName.getD ""
    replica_set_name := r.replicaSetName }

/-- Response of the processes list endpoint: status code and the `results`
array (absent `results` is the empty list, as `data.get` defaults to `[]`). -/
structure ProcessesResponse where
  statusCode : Nat
  results : List ProcessRecord
deriving DecidableEq

/-- The matching predicate of `FTDCService.get_replica_set`: the shard's
`replica_set_name` is truthy and contains the candidate as a substring, or
its `user_alias` contains the candidate as a substring. -/
def shardMatches (replica_set_name : String) (shard : Shard) : Bool :=
  (pyTruthy shard.replica_set_name
      && containsSub (shard.replica_set_name.getD "") replica_set_name)
    || containsSub shard.user_alias replica_set_name

/-- `FTDCService.get_replica_set`, with the HTTP response as input. On a
non-200 status it raises `ReplicaSetNotFoundError`; otherwise it filters the
shards by `shardMatches`, raises `ReplicaSetNotFoundError` when no shard
matches, and returns the first match's `replica_set_name` when that is
truthy, raising `ReplicaSetNotFoundError` otherwise. -/
def get_replica_set (resp : ProcessesResponse) (replica_set_name : String) :
    Except ErrKind String :=
  if resp.statusCode ≠ 200 then .error .replicaSetNotFound
  else
    match (resp.results.map Shard.ofRecord).filter (shardMatches replica_set_name) with
    | [] => .error .replicaSetNotFound
    | first_shard :: _ =>
      if pyTruthy first_shard.replica_set_name then
        .ok (first_shard.replica_set_name.getD "")
      else .error .replicaSetNotFound

/-- `LogCollectionJob` dataclass from `models.py`. Byte size is a Python
integer, hence `Int`. -/
structure LogCollectionJob where
  resource_type : String
  resource_name : String
  redacted : Bool
  size_requested_per_file_bytes : Int
  log_types : List String
deriving DecidableEq

/-- `LogCollectionJob.create` from `models.py`. -/
def LogCollectionJob.create (replica_set : String) (byte_size : Int) : LogCollectionJob :=
  { resource_type := "REPLICASET"
    resource_name := replica_set
    redacted := true
    size_requested_per_file_bytes := byte_size
    log_types := ["FTDC"] }

/-- The JSON payload `FTDCService.create_ftdc_job` posts to the
job-creation endpoint; field names are the JSON keys. -/
structure JobPayload where
  resourceType : String
  resourceName : String
  redacted : Bool
  sizeRequestedPerFileBytes : Int
  logTypes : List String
deriving DecidableEq

/-- Payload construction in `FTDCService.create_ftdc_job`: the fields of
`LogCollectionJob.create replica_set byte_size` keyed as in the request
body. -/
def createJobPayload (replica_set : String) (byte_size : Int) : JobPayload :=
  let job := LogCollectionJob.create replica_set byte_size
  { resourceType := job.resource_type
    resourceName := job.resource_name
    redacted := job.redacted
    sizeRequestedPerFileBytes := job.size_requested_per_file_bytes
    logTypes := job.log_types }

/-- `JobId` dataclass from `models.py`. -/
structure JobId where
  id : String
deriving DecidableEq

/-- Response of the job-creation endpoint: status code and the optional
`id` key of the JSON body (the code reads it with `data["id"]`, which
raises `KeyError` when absent). -/
structure CreateJobResponse where
  statusCode : Nat
  id : Option String
deriving DecidableEq

/-- `FTDCService.create_ftdc_job`, with the HTTP response as input. A
status other than 201 raises `JobCreationError`; otherwise `data["id"]` is
read, raising `KeyError` when the key is absent. -/
def create_ftdc_job (resp : CreateJobResponse) : Except ErrKind JobId :=
  if resp.statusCode ≠ 201 then .error .jobCreation
  else
    match resp.id with
    | some i => .ok { id := i }
    | none => .error .keyError

/-- Response of one status query: status code plus the optional `status`
and `downloadUrl` keys of the JSON body (read with `data.get`, default
`""`). -/
structure PollResponse where
  statusCode : Nat
  status : Option String
  downloadUrl : Option String
deriving DecidableEq

/-- Outcome of one iteration of the poll loop in
`FTDCService.check_job_state`: either sleep and requery (`next`), or leave
the loop with a result (`done`). -/
inductive StepOutcome where
  | next
  | done (res : Except ErrKind String)
deriving DecidableEq

/-- One iteration of the loop body of `FTDCService.check_job_state`: a
non-200 query raises `JobStatusError`; state `IN_PROGRESS` continues the
loop; `SUCCESS` or `MARKED_FOR_EXPIRY` returns `data.get "downloadUrl" ""`;
`FAILURE` or `EXPIRED` raises `JobStatusError`; any other state raises
`JobStatusError` (unknown-state guard). -/
def pollStep (r : PollResponse) : StepOutcome :=
  if r.statusCode ≠ 200 then .done (.error .jobStatus)
  else
    let status := r.status.getD ""
    if status = JobState.IN_PROGRESS.value then .next
    else if status = JobState.SUCCESS.value ∨ status = JobState.MARKED_FOR_EXPIRY.value then
      .done (.ok (r.downloadUrl.getD ""))
    else if status = JobState.FAILURE.value ∨ status = JobState.EXPIRED.value then
      .done (.error .jobStatus)
    else .done (.error .jobStatus)

/-- Observable outcome of a run of the poll loop: the returned value or
raised error, the number of status queries issued, and the list of sleep
durations performed (one `poll_interval` entry per inter-poll wait). -/
structure PollOut where
  result : Except ErrKind String
  queries : Nat
  sleeps : List Nat
deriving DecidableEq

/-- `FTDCService.check_job_state` over a finite trace of query responses:
the loop consumes responses in order; `none` means the trace was exhausted
with the loop still running (the Python loop is unbounded). Queries and
sleeps are counted as the code performs them: every iteration issues one
query first, and only an `IN_PROGRESS` observation sleeps `poll_interval`
before the next query. -/
def check_job_state (poll_interval : Nat) : List PollResponse → Option PollOut
  | [] => none
  | r :: rs =>
    match pollStep r with
    | .done res => some { result := res, queries := 1, sleeps := [] }
    | .next =>
      match check_job_state poll_interval rs with
      | none => none
      | some o =>
        some { result := o.result, queries := o.queries + 1
               sleeps := poll_interval :: o.sleeps }

/-- Response of the download endpoint: status code and the streamed body as
a list of byte chunks. -/
structure DownloadResponse where
  statusCode : Nat
  chunks : List (List Nat)
deriving DecidableEq

/-- A local file path `dir / name` as built by `output_dir / filename`. -/
structure OutFilePath where
  dir : String
  name : String
deriving DecidableEq

/-- The file name built in `FTDCService.download_ftdc_data`. -/
def ftdcFileName (replica_set job_id : String) : String :=
  "ftdc_data_" ++ replica_set ++ "_job_" ++ job_id ++ ".tar.gz"

/-- `FTDCService.download_ftdc_data`, with the HTTP response as input. The
first component is the returned path or raised `DownloadError`; the second
is the file created on disk (path and written bytes), `none` when the code
never reaches `open`. On a non-200 status it raises before opening any
file; otherwise it writes all chunks to
`output_dir / ftdc_data_<replica_set>_job_<job_id>.tar.gz` and returns that
path. -/
def download_ftdc_data (resp : DownloadResponse) (job_id replica_set : String)
    (output_dir : String) :
    Except ErrKind OutFilePath × Option (OutFilePath × List Nat) :=
  if resp.statusCode ≠ 200 then (.error .download, none)
  else
    let file_path : OutFilePath := { dir := output_dir, name := ftdcFileName replica_set job_id }
    (.ok file_path, some (file_path, resp.chunks.flatten))

/-! ### Helper lemmas -/

/-- The head of a filtered list is the first element satisfying the
predicate. -/
theorem head?_filter_eq_find? {α : Type} (p : α → Bool) (l : List α) :
    (l.filter p).head? = l.find? p := by
  induction l with
  | nil => rfl
  | cons a l ih =>
    cases h : p a with
    | true => simp [List.filter_cons, List.find?_cons, h]
    | false => simp [List.filter_cons, List.find?_cons, h, ih]

/-- Membership in the five known job-state strings, unfolded. -/
theorem mem_JobState_values_iff (s : String) :
    s ∈ JobState.values ↔
      s = "SUCCESS" ∨ s = "FAILURE" ∨ s = "IN_PROGRESS" ∨
        s = "MARKED_FOR_EXPIRY" ∨ s = "EXPIRED" := by
  simp [JobState.values, JobState.all, JobState.value]

/-- Running the poll loop on a trace of continue-observations followed by a
terminal observation: the loop returns that observation's result after one
query per response consumed and one sleep per continue-observation; the
trailing part of the trace is never consumed. -/
theorem check_job_state_trace (pi : Nat) (pre : List PollResponse) (r : PollResponse)
    (rest : List PollResponse) (res : Except ErrKind String)
    (hpre : ∀ x ∈ pre, pollStep x = .next) (hr : pollStep r = .done res) :
    check_job_state pi (pre ++ r :: rest) =
      some { result := res, queries := pre.length + 1
             sleeps := List.replicate pre.length pi } := by
  induction pre with
  | nil => simp [check_job_state, hr]
  | cons a pre ih =>
    have ha : pollStep a = .next := hpre a (by simp)
    have hp : ∀ x ∈ pre, pollStep x = .next := fun x hx => hpre x (by simp [hx])
    simp [check_job_state, ha, ih hp, List.replicate_succ]

/-! ### Claim theorems -/

/-- C1: when the processes query succeeds and the first record matching the
candidate name in the list's original order has a non-empty
`replica_set_name`, resolution returns exactly that name, never a later
match. -/
theorem get_replica_set_returns_first_match (resp : ProcessesResponse)
    (candidate s : String) (sh : Shard)
    (hok : resp.statusCode = 200)
    (hfind : (resp.results.map Shard.ofRecord).find? (shardMatches candidate) = some sh)
    (hname : sh.replica_set_name = some s) (hne : s ≠ "") :
    get_replica_set resp candidate = .ok s := by
  have hh : ((resp.results.map Shard.ofRecord).filter (shardMatches candidate)).head?
      = some sh := by
    rw [head?_filter_eq_find?]
    exact hfind
  cases hm : (resp.results.map Shard.ofRecord).filter (shardMatches candidate) with
  | nil => rw [hm] at hh; simp at hh
  | cons first rest =>
    rw [hm] at hh
    simp only [List.head?_cons, Option.some.injEq] at hh
    subst hh
    simp [get_replica_set, hok, hm, pyTruthy, hname, hne]

theorem get_replica_set_returns_first_match_witness :
    get_replica_set
        { statusCode := 200
          results :=
            [{ userAlias := some "atlas-shard-00-0", typeName := some "SHARD"
               replicaSetName := some "atlas-shard-00" },
             { userAlias := some "atlas-shard-00-1", typeName := some "SHARD"
               replicaSetName := some "atlas-shard-00-later" }] }
        "shard-00"
      = .ok "atlas-shard-00" :=
  get_replica_set_returns_first_match _ "shard-00" "atlas-shard-00"
    { user_alias := "atlas-shard-00-0", type_name := "SHARD"
      replica_set_name := some "atlas-shard-00" }
    rfl (by decide) rfl (by decide)

/-- C2: when the processes query succeeds and the first record matching the
candidate name has a falsy `replica_set_name` (absent or empty), resolution
raises `ReplicaSetNotFoundError`, and never falls through to a later
matching record. -/
theorem get_replica_set_first_match_without_name (resp : ProcessesResponse)
    (candidate : String) (sh : Shard)
    (hok : resp.statusCode = 200)
    (hfind : (resp.results.map Shard.ofRecord).find? (shardMatches candidate) = some sh)
    (hname : pyTruthy sh.replica_set_name = false) :
    get_replica_set resp candidate = .error .replicaSetNotFound := by
  have hh : ((resp.results.map Shard.ofRecord).filter (shardMatches candidate)).head?
      = some sh := by
    rw [head?_filter_eq_find?]
    exact hfind
  cases hm : (resp.results.map Shard.ofRecord).filter (shardMatches candidate) with
  | nil => rw [hm] at hh; simp at hh
  | cons first rest =>
    rw [hm] at hh
    simp only [List.head?_cons, Option.some.injEq] at hh
    subst hh
    simp [get_replica_set, hok, hm, hname]

theorem get_replica_set_first_match_without_name_witness :
    get_replica_set
        { statusCode := 200
          results :=
            [{ userAlias := some "shard-00-incomplete", typeName := some "SHARD"
               replicaSetName := none },
             { userAlias := some "shard-00-complete", typeName := some "SHARD"
               replicaSetName := some "atlas-shard-00" }] }
        "shard-00"
      = .error .replicaSetNotFound :=
  get_replica_set_first_match_without_name _ "shard-00"
    { user_alias := "shard-00-incomplete", type_name := "SHARD", replica_set_name := none }
    rfl (by decide) rfl

/-- C10: a non-200 response from the processes list endpoint makes
resolution raise `ReplicaSetNotFoundError`, the same error class raised
when no record matches (shown by the second conjunct on an empty list). -/
theorem get_replica_set_query_failure (resp : ProcessesResponse) (candidate : String)
    (h : resp.statusCode ≠ 200) :
    get_replica_set resp candidate = .error .replicaSetNotFound ∧
    get_replica_set { statusCode := 200, results := [] } candidate
      = .error .replicaSetNotFound := by
  constructor
  · simp [get_replica_set, h]
  · rfl

theorem get_replica_set_query_failure_witness :
    get_replica_set { statusCode := 500, results := [] } "shard-00"
      = .error .replicaSetNotFound ∧
    get_replica_set { statusCode := 200, results := [] } "shard-00"
      = .error .replicaSetNotFound :=
  get_replica_set_query_failure { statusCode := 500, results := [] } "shard-00" (by decide)

/-- C5: any job-creation response whose status is not 201 makes submission
raise `JobCreationError`, returning no `JobId`; the function issues the one
creation call and contains no retry. -/
theorem create_ftdc_job_non_created (resp : CreateJobResponse)
    (h : resp.statusCode ≠ 201) :
    create_ftdc_job resp = .error .jobCreation := by
  simp [create_ftdc_job, h]

theorem create_ftdc_job_non_created_witness :
    create_ftdc_job { statusCode := 403, id := some "job123" } = .error .jobCreation :=
  create_ftdc_job_non_created { statusCode := 403, id := some "job123" } (by decide)

/-- C8: the payload submitted by `create_ftdc_job` has `resourceType` fixed
to `"REPLICASET"`, `redacted` fixed to `true`, `logTypes` fixed to
`["FTDC"]`, `resourceName` equal to the resolved replica-set name and
`sizeRequestedPerFileBytes` equal to the caller-supplied byte size. -/
theorem createJobPayload_fields (replica_set : String) (byte_size : Int) :
    (createJobPayload replica_set byte_size).resourceType = "REPLICASET" ∧
    (createJobPayload replica_set byte_size).redacted = true ∧
    (createJobPayload replica_set byte_size).logTypes = ["FTDC"] ∧
    (createJobPayload replica_set byte_size).resourceName = replica_set ∧
    (createJobPayload replica_set byte_size).sizeRequestedPerFileBytes = byte_size := by
  refine ⟨rfl, rfl, rfl, rfl, rfl⟩

/-- C9: a job-creation response with status 201 whose body lacks the `id`
key makes submission raise Python's `KeyError`, which is outside the
`FTDCError` hierarchy, instead of a `JobCreationError`. -/
theorem create_ftdc_job_missing_id (resp : CreateJobResponse)
    (h201 : resp.statusCode = 201) (hid : resp.id = none) :
    create_ftdc_job resp = .error .keyError ∧
    ErrKind.isFTDCError .keyError = false := by
  refine ⟨?_, rfl⟩
  simp [create_ftdc_job, h201, hid]

theorem create_ftdc_job_missing_id_witness :
    create_ftdc_job { statusCode := 201, id := none } = .error .keyError ∧
    ErrKind.isFTDCError .keyError = false :=
  create_ftdc_job_missing_id { statusCode := 201, id := none } rfl rfl

/-- C6: a non-200 response from the stream endpoint makes the download
raise `DownloadError` with no file created and zero bytes written (the
file-effect component is `none`). -/
theorem download_ftdc_data_non_success (resp : DownloadResponse)
    (job_id replica_set output_dir : String)
    (h : resp.statusCode ≠ 200) :
    download_ftdc_data resp job_id replica_set output_dir = (.error .download, none) := by
  simp [download_ftdc_data, h]

theorem download_ftdc_data_non_success_witness :
    download_ftdc_data { statusCode := 404, chunks := [[1, 2, 3]] } "job123"
        "atlas-shard-00" "/tmp/out"
      = (.error .download, none) :=
  download_ftdc_data_non_success { statusCode := 404, chunks := [[1, 2, 3]] }
    "job123" "atlas-shard-00" "/tmp/out" (by decide)

/-- C7: a successful download writes the whole body to the file
`ftdc_data_<replica_set>_job_<job_id>.tar.gz` inside the output directory
and returns exactly that path. -/
theorem download_ftdc_data_success_path (resp : DownloadResponse)
    (job_id replica_set output_dir : String)
    (h : resp.statusCode = 200) :
    download_ftdc_data resp job_id replica_set output_dir =
      (.ok { dir := output_dir
             name := "ftdc_data_" ++ replica_set ++ "_job_" ++ job_id ++ ".tar.gz" },
       some ({ dir := output_dir
               name := "ftdc_data_" ++ replica_set ++ "_job_" ++ job_id ++ ".tar.gz" },
             resp.chunks.flatten)) := by
  simp [download_ftdc_data, h, ftdcFileName]

theorem download_ftdc_data_success_path_witness :
    download_ftdc_data { statusCode := 200, chunks := [[1, 2], [3]] } "job123"
        "atlas-shard-00" "/tmp/out"
      = (.ok { dir := "/tmp/out", name := "ftdc_data_atlas-shard-00_job_job123.tar.gz" },
         some ({ dir := "/tmp/out", name := "ftdc_data_atlas-shard-00_job_job123.tar.gz" },
               [1, 2, 3])) := by
  have h := download_ftdc_data_success_path { statusCode := 200, chunks := [[1, 2], [3]] }
    "job123" "atlas-shard-00" "/tmp/out" rfl
  simpa using h

/-- A poll observation that does not continue the loop leaves it with some
result. -/
theorem pollStep_not_next (r : PollResponse) (hterm : pollStep r ≠ .next) :
    ∃ res, pollStep r = .done res := by
  cases h : pollStep r with
  | next => exact absurd h hterm
  | done res => exact ⟨res, rfl⟩

/-- Exhaustive classification of one poll observation by status code and
status string. -/
theorem pollStep_class (r : PollResponse) :
    (r.statusCode ≠ 200 ∧ pollStep r = .done (.error .jobStatus)) ∨
    (r.statusCode = 200 ∧ r.status.getD "" = JobState.IN_PROGRESS.value ∧
      pollStep r = .next) ∨
    (r.statusCode = 200 ∧
      (r.status.getD "" = JobState.SUCCESS.value ∨
        r.status.getD "" = JobState.MARKED_FOR_EXPIRY.value) ∧
      pollStep r = .done (.ok (r.downloadUrl.getD ""))) ∨
    (r.statusCode = 200 ∧
      (r.status.getD "" = JobState.FAILURE.value ∨
        r.status.getD "" = JobState.EXPIRED.value) ∧
      pollStep r = .done (.error .jobStatus)) ∨
    (r.statusCode = 200 ∧ r.status.getD "" ∉ JobState.values ∧
      pollStep r = .done (.error .jobStatus)) := by
  by_cases h200 : r.statusCode = 200
  · by_cases hip : r.status.getD "" = JobState.IN_PROGRESS.value
    · exact Or.inr (Or.inl ⟨h200, hip, by simp [pollStep, h200, hip]⟩)
    · by_cases hs : r.status.getD "" = JobState.SUCCESS.value ∨
          r.status.getD "" = JobState.MARKED_FOR_EXPIRY.value
      · refine Or.inr (Or.inr (Or.inl ⟨h200, hs, ?_⟩))
        rcases hs with hs | hs
        · simp [pollStep, h200, hs, JobState.value]
        · simp [pollStep, h200, hs, JobState.value]
      · by_cases hf : r.status.getD "" = JobState.FAILURE.value ∨
            r.status.getD "" = JobState.EXPIRED.value
        · refine Or.inr (Or.inr (Or.inr (Or.inl ⟨h200, hf, ?_⟩)))
          rcases hf with hf | hf
          · simp [pollStep, h200, hf, JobState.value]
          · simp [pollStep, h200, hf, JobState.value]
        · refine Or.inr (Or.inr (Or.inr (Or.inr ⟨h200, ?_, ?_⟩)))
          · rw [mem_JobState_values_iff]
            simp only [not_or] at hs hf ⊢
            simp only [JobState.value] at hip hs hf
            exact ⟨hs.1, hf.1, hip, hs.2, hf.2⟩
          · simp only [not_or] at hs hf
            simp [pollStep, h200, hip, hs.1, hs.2, hf.1, hf.2]
  · exact Or.inl ⟨h200, by simp [pollStep, h200]⟩

/-- C4: polling a trace of N successful `IN_PROGRESS` observations followed
by a first non-continuing observation `r` performs exactly N sleeps of the
configured interval and exactly N+1 status queries, beginning with an
immediate query; the result is decided by `r` alone and any responses after
`r` are never consumed, so a terminal failure on the first observation
(N = 0) fails with one query and no retry. -/
theorem check_job_state_counts (pi : Nat) (pre : List PollResponse) (r : PollResponse)
    (rest : List PollResponse)
    (hpre : ∀ x ∈ pre, x.statusCode = 200 ∧
      x.status.getD "" = JobState.IN_PROGRESS.value)
    (hterm : pollStep r ≠ .next) :
    ∃ res, pollStep r = .done res ∧
      check_job_state pi (pre ++ r :: rest) =
        some { result := res, queries := pre.length + 1
               sleeps := List.replicate pre.length pi } := by
  obtain ⟨res, hres⟩ := pollStep_not_next r hterm
  refine ⟨res, hres, check_job_state_trace pi pre r rest res ?_ hres⟩
  intro x hx
  obtain ⟨h1, h2⟩ := hpre x hx
  simp [pollStep, h1, h2]

theorem check_job_state_counts_witness :
    ∃ res, pollStep { statusCode := 200, status := some "FAILURE", downloadUrl := none }
        = .done res ∧
      check_job_state 3
          [{ statusCode := 200, status := some "IN_PROGRESS", downloadUrl := none },
           { statusCode := 200, status := some "IN_PROGRESS", downloadUrl := none },
           { statusCode := 200, status := some "FAILURE", downloadUrl := none },
           { statusCode := 200, status := some "SUCCESS", downloadUrl := some "u" }]
        = some { result := res, queries := 3, sleeps := [3, 3] } :=
  check_job_state_counts 3
    [{ statusCode := 200, status := some "IN_PROGRESS", downloadUrl := none },
     { statusCode := 200, status := some "IN_PROGRESS", downloadUrl := none }]
    { statusCode := 200, status := some "FAILURE", downloadUrl := none }
    [{ statusCode := 200, status := some "SUCCESS", downloadUrl := some "u" }]
    (by decide) (by decide)

/-- C3: over any trace of successful continue-observations followed by a
first non-continuing observation `r`, the poll loop raises `JobStatusError`
exactly when the query failed (non-200), the observed state is `FAILURE` or
`EXPIRED`, or the observed state is outside the five known `JobState`
values; it returns a url exactly when the query succeeded with state
`SUCCESS` or `MARKED_FOR_EXPIRY`, and that url is the response's
`downloadUrl` verbatim, with an absent field returned as `""` and never
validated. -/
theorem check_job_state_classification (pi : Nat) (pre : List PollResponse)
    (r : PollResponse) (rest : List PollResponse)
    (hpre : ∀ x ∈ pre, pollStep x = .next) (hterm : pollStep r ≠ .next) :
    ((∃ o, check_job_state pi (pre ++ r :: rest) = some o ∧
        o.result = .error .jobStatus) ↔
      (r.statusCode ≠ 200 ∨ r.status.getD "" = JobState.FAILURE.value ∨
        r.status.getD "" = JobState.EXPIRED.value ∨
        r.status.getD "" ∉ JobState.values)) ∧
    (∀ url, (∃ o, check_job_state pi (pre ++ r :: rest) = some o ∧
        o.result = .ok url) ↔
      (r.statusCode = 200 ∧
        (r.status.getD "" = JobState.SUCCESS.value ∨
          r.status.getD "" = JobState.MARKED_FOR_EXPIRY.value) ∧
        url = r.downloadUrl.getD "")) := by
  obtain ⟨res, hres⟩ := pollStep_not_next r hterm
  have hcjs := check_job_state_trace pi pre r rest res hpre hres
  have hkey : ∀ X : Except ErrKind String,
      (∃ o, check_job_state pi (pre ++ r :: rest) = some o ∧ o.result = X) ↔
        res = X := by
    intro X
    constructor
    · rintro ⟨o, ho, hoX⟩
      rw [hcjs, Option.some.injEq] at ho
      rw [← hoX, ← ho]
    · rintro rfl
      exact ⟨_, hcjs, rfl⟩
  simp only [hkey]
  rcases pollStep_class r with ⟨h200, hcl⟩ | ⟨h200, hip, hcl⟩ |
      ⟨h200, hs, hcl⟩ | ⟨h200, hf, hcl⟩ | ⟨h200, hnv, hcl⟩
  · have h := hres.symm.trans hcl
    injection h with h
    subst h
    refine ⟨by simp [h200], fun url => by simp [h200]⟩
  · exact absurd hcl hterm
  · have h := hres.symm.trans hcl
    injection h with h
    subst h
    constructor
    · rcases hs with hs | hs
      · simp [h200, hs, JobState.value, mem_JobState_values_iff]
      · simp [h200, hs, JobState.value, mem_JobState_values_iff]
    · intro url
      simp only [Except.ok.injEq]
      constructor
      · rintro rfl
        exact ⟨h200, hs, rfl⟩
      · rintro ⟨-, -, rfl⟩
        rfl
  · have h := hres.symm.trans hcl
    injection h with h
    subst h
    constructor
    · exact iff_of_true rfl (Or.inr (hf.imp id Or.inl))
    · intro url
      rcases hf with hf | hf
      · simp [h200, hf, JobState.value]
      · simp [h200, hf, JobState.value]
  · have h := hres.symm.trans hcl
    injection h with h
    subst h
    constructor
    · exact iff_of_true rfl (Or.inr (Or.inr (Or.inr hnv)))
    · intro url
      have h1 : ¬ (r.status.getD "" = JobState.SUCCESS.value ∨
          r.status.getD "" = JobState.MARKED_FOR_EXPIRY.value) := by
        rintro (hs | hs)
        · exact hnv (by rw [hs, mem_JobState_values_iff]; simp [JobState.value])
        · exact hnv (by rw [hs, mem_JobState_values_iff]; simp [JobState.value])
      simp [h1]

theorem check_job_state_classification_witness :
    (∃ o, check_job_state 3
        [{ statusCode := 200, status := some "IN_PROGRESS", downloadUrl := none },
         { statusCode := 200, status := some "MARKED_FOR_EXPIRY", downloadUrl := none }]
      = some o ∧ o.result = .ok "") :=
  (((check_job_state_classification 3
      [{ statusCode := 200, status := some "IN_PROGRESS", downloadUrl := none }]
      { statusCode := 200, status := some "MARKED_FOR_EXPIRY", downloadUrl := none }
      [] (by decide) (by decide)).2) "").mpr (by decide)
